import Mathlib

/-!
# Blues settings store and AT command handlers (`user_at_cmd.cpp`)

A shallow embedding of the Blues-WisBlock-Tracker user AT commands:
the global settings record `g_blues_settings`, the flash file `BLUES`,
the load/save/reset operations and the command handlers.

Conventions of the embedding

* A C string is the list of its characters before the terminating NUL.
* The flash file, when present, holds one image of the settings record: the
  only writer, `save_blues_settings`, writes `sizeof(s_blues_settings)` bytes
  and `read_blues_settings` reads back the same number of bytes.
* `Serial.printf` diagnostics are not part of the state.
* A handler whose execution reaches a `printf` conversion that consumes a
  missing argument has no defined result; such a run is `none`.
* Locals that the source reads before writing them are taken from an explicit
  `Uninit` argument.
-/

namespace Blues

/-! ## Data model -/

/-- Modelled from the spec: `s_blues_settings` is declared in `main.h`, which is
not among the sources; the fields are those the handlers access. -/
structure s_blues_settings where
  valid_mark : Nat
  product_uid : List Char
  use_ext_sim : Bool
  ext_sim_apn : List Char
  conn_continous : Bool
  motion_trigger : Bool
deriving DecidableEq

/-- Status codes of the AT command framework (`AT_SUCCESS`, `AT_ERRNO_PARA_NUM`
are returned by the handlers, `AT_ERRNO_PARA_FAIL` is named in a docstring). -/
inductive ATStatus where
  | AT_SUCCESS
  | AT_ERRNO_PARA_FAIL
  | AT_ERRNO_PARA_NUM
deriving DecidableEq

/-- The attention-line collaborators called by the mode and trigger setters. -/
inductive AttnCall where
  | blues_enable_attn
  | blues_disable_attn
deriving DecidableEq

/-- Everything the handlers read or write: the global record, the flash file
`BLUES` (absent, or one record image), the query reply buffer, the number of
completed `save_blues_settings` calls and the attention-line calls made so far
(most recent first). -/
structure State where
  g_blues_settings : s_blues_settings
  flash : Option s_blues_settings
  g_at_query_buf : List Char
  saves : Nat
  attn_calls : List AttnCall
deriving DecidableEq

/-- Values of the locals `new_use_ext_sim` and `new_ext_sim_apn` of
`at_set_blues_ext_sim` on entry: the source declares both without an
initialiser. -/
structure Uninit where
  new_use_ext_sim : Bool
  new_ext_sim_apn : List Char
deriving DecidableEq

/-- A record with every byte zero. -/
def zeroed : s_blues_settings :=
  { valid_mark := 0, product_uid := [], use_ext_sim := false, ext_sim_apn := [],
    conn_continous := false, motion_trigger := false }

/-! ## C library pieces -/

/-- The in-place loop `if (c >= 'A' && c <= 'Z') c = c + 32;` applied to one
character. -/
def lowerChar (c : Char) : Char :=
  if 'A' ≤ c ∧ c ≤ 'Z' then Char.ofNat (c.toNat + 32) else c

/-- The lowercase loop of the setters, run over the whole string. -/
def lowerLoop : List Char → List Char
  | [] => []
  | c :: cs => lowerChar c :: lowerLoop cs

/-- Output of a `printf` format string that is given no arguments: `%%` prints
one `%`, any other conversion would consume an argument that is not there. -/
def expandFormat : List Char → Option (List Char)
  | [] => some []
  | [c] => if c = '%' then none else some [c]
  | c :: d :: rest =>
    if c = '%' then
      if d = '%' then (expandFormat rest).map (List.cons '%') else none
    else (expandFormat (d :: rest)).map (List.cons c)

/-- Call `snprintf(dst, size, fmt)` with the string `fmt` as the format and no
further argument: the string left in `dst`. -/
def snprintf_fmt (size : Nat) (fmt : List Char) : Option (List Char) :=
  (expandFormat fmt).map (List.take (size - 1))

/-- Call `snprintf(dst, size, "%s", arg)`: the string left in `dst`. -/
def snprintf_s (size : Nat) (arg : List Char) : List Char :=
  arg.take (size - 1)

/-- One `strtok` step with the delimiter set `":"`: skip leading delimiters,
return `none` (NULL) at the end of the string, otherwise the token and the
position saved for the next call. -/
def strtok (s : List Char) : Option (List Char × List Char) :=
  match s.dropWhile (fun c => c == ':') with
  | [] => none
  | c :: cs =>
    some ((c :: cs).takeWhile (fun c => c != ':'),
          ((c :: cs).dropWhile (fun c => c != ':')).drop 1)

/-! ## Settings store -/

/-- Source `save_blues_settings`: remove the file if it exists, force the
validity marker, write the record to a new file. -/
def save_blues_settings (s : State) : State :=
  let s1 := if s.flash.isSome then { s with flash := none } else s
  let g := { s1.g_blues_settings with valid_mark := 0xAA55 }
  { s1 with g_blues_settings := g, flash := some g, saves := s1.saves + 1 }

/-- Source `read_blues_settings`: when the file exists, read it over the record
and report whether the marker is `0xAA55`. -/
def read_blues_settings (s : State) : Bool × State :=
  match s.flash with
  | some image =>
    let s1 := { s with g_blues_settings := image }
    if s1.g_blues_settings.valid_mark = 0xAA55 then (true, s1) else (false, s1)
  | none => (false, s)

/-- Source `at_reset_blues_settings`: remove the file if it exists. -/
def at_reset_blues_settings (s : State) : ATStatus × State :=
  let s1 := if s.flash.isSome then { s with flash := none } else s
  (ATStatus.AT_SUCCESS, s1)

/-! ## Command handlers -/

/-- Source `at_set_blues_prod_uid`. -/
def at_set_blues_prod_uid (str : List Char) (s : State) : Option (ATStatus × State) :=
  if str.length < 25 then
    some (ATStatus.AT_ERRNO_PARA_NUM, s)
  else
    -- snprintf(new_uid, 255, str) after the lowercase loop
    match snprintf_fmt 255 (lowerLoop str) with
    | none => none
    | some new_uid =>
      let need_save := if new_uid = s.g_blues_settings.product_uid then false else true
      if need_save then
        -- snprintf(g_blues_settings.product_uid, 256, new_uid)
        match snprintf_fmt 256 new_uid with
        | none => none
        | some uid =>
          some (ATStatus.AT_SUCCESS,
            save_blues_settings
              { s with g_blues_settings := { s.g_blues_settings with product_uid := uid } })
      else
        some (ATStatus.AT_SUCCESS, s)

/-- Source `at_query_blues_prod_uid`; `ATQUERY_SIZE` is defined by the AT command
framework and is a parameter here. -/
def at_query_blues_prod_uid (ATQUERY_SIZE : Nat) (s : State) : ATStatus × State :=
  (ATStatus.AT_SUCCESS,
    { s with g_at_query_buf := snprintf_s ATQUERY_SIZE s.g_blues_settings.product_uid })

/-- The parsing half of `at_set_blues_ext_sim` (source lines 86 to 124): the
values of `new_use_ext_sim` and `new_ext_sim_apn` when control reaches the
comparison with the stored record, or the status of an early return. -/
def parse_ext_sim (u : Uninit) (str : List Char) : Except ATStatus (Bool × List Char) :=
  match strtok str with
  | none => Except.ok (u.new_use_ext_sim, u.new_ext_sim_apn)
  | some (param, rest) =>
    if param.head? = some '0' then
      Except.ok (false, u.new_ext_sim_apn)
    else if param.head? = some '1' then
      match strtok rest with
      | some (param2, _) => Except.ok (true, snprintf_s 256 (lowerLoop param2))
      | none => Except.error ATStatus.AT_ERRNO_PARA_NUM
    else
      Except.error ATStatus.AT_ERRNO_PARA_NUM

/-- Source `at_set_blues_ext_sim`. -/
def at_set_blues_ext_sim (u : Uninit) (str : List Char) (s : State) :
    Option (ATStatus × State) :=
  match parse_ext_sim u str with
  | Except.error e => some (e, s)
  | Except.ok (new_use_ext_sim, new_ext_sim_apn) =>
    let g := s.g_blues_settings
    let g1 := if new_use_ext_sim ≠ g.use_ext_sim then
                { g with use_ext_sim := new_use_ext_sim } else g
    let need_save1 := if new_use_ext_sim ≠ g.use_ext_sim then true else false
    -- strcmp(new_ext_sim_apn, g_blues_settings.product_uid) != 0
    if new_ext_sim_apn ≠ g1.product_uid then
      -- snprintf(g_blues_settings.ext_sim_apn, 256, new_ext_sim_apn)
      match snprintf_fmt 256 new_ext_sim_apn with
      | none => none
      | some apn =>
        some (ATStatus.AT_SUCCESS,
          save_blues_settings { s with g_blues_settings := { g1 with ext_sim_apn := apn } })
    else if need_save1 then
      some (ATStatus.AT_SUCCESS, save_blues_settings { s with g_blues_settings := g1 })
    else
      some (ATStatus.AT_SUCCESS, { s with g_blues_settings := g1 })

/-- Source `at_query_blues_ext_sim`. -/
def at_query_blues_ext_sim (ATQUERY_SIZE : Nat) (s : State) : ATStatus × State :=
  if s.g_blues_settings.use_ext_sim then
    (ATStatus.AT_SUCCESS,
      { s with g_at_query_buf :=
          snprintf_s ATQUERY_SIZE (['1', ':'] ++ s.g_blues_settings.ext_sim_apn) })
  else
    (ATStatus.AT_SUCCESS, { s with g_at_query_buf := snprintf_s ATQUERY_SIZE ['0'] })

/-- Source `at_set_blues_mode`; `str[0]` of the empty string is the NUL. -/
def at_set_blues_mode (str : List Char) (s : State) : ATStatus × State :=
  if str.head? = some '0' then
    let s1 := { s with attn_calls := AttnCall.blues_disable_attn :: s.attn_calls }
    if false ≠ s1.g_blues_settings.conn_continous then
      (ATStatus.AT_SUCCESS,
        save_blues_settings
          { s1 with g_blues_settings := { s1.g_blues_settings with conn_continous := false } })
    else (ATStatus.AT_SUCCESS, s1)
  else if str.head? = some '1' then
    let s1 := { s with attn_calls := AttnCall.blues_enable_attn :: s.attn_calls }
    if true ≠ s1.g_blues_settings.conn_continous then
      (ATStatus.AT_SUCCESS,
        save_blues_settings
          { s1 with g_blues_settings := { s1.g_blues_settings with conn_continous := true } })
    else (ATStatus.AT_SUCCESS, s1)
  else
    (ATStatus.AT_ERRNO_PARA_NUM, s)

/-- Source `at_query_blues_mode`. -/
def at_query_blues_mode (ATQUERY_SIZE : Nat) (s : State) : ATStatus × State :=
  (ATStatus.AT_SUCCESS,
    { s with g_at_query_buf :=
        snprintf_s ATQUERY_SIZE (if s.g_blues_settings.conn_continous then ['1'] else ['0']) })

/-- Source `at_set_blues_trigger`. -/
def at_set_blues_trigger (str : List Char) (s : State) : ATStatus × State :=
  if str.head? = some '0' then
    let s1 := { s with attn_calls := AttnCall.blues_disable_attn :: s.attn_calls }
    if false ≠ s1.g_blues_settings.motion_trigger then
      (ATStatus.AT_SUCCESS,
        save_blues_settings
          { s1 with g_blues_settings := { s1.g_blues_settings with motion_trigger := false } })
    else (ATStatus.AT_SUCCESS, s1)
  else if str.head? = some '1' then
    let s1 := { s with attn_calls := AttnCall.blues_enable_attn :: s.attn_calls }
    if true ≠ s1.g_blues_settings.motion_trigger then
      (ATStatus.AT_SUCCESS,
        save_blues_settings
          { s1 with g_blues_settings := { s1.g_blues_settings with motion_trigger := true } })
    else (ATStatus.AT_SUCCESS, s1)
  else
    (ATStatus.AT_ERRNO_PARA_NUM, s)

/-- Source `at_query_blues_trigger`. -/
def at_query_blues_trigger (ATQUERY_SIZE : Nat) (s : State) : ATStatus × State :=
  (ATStatus.AT_SUCCESS,
    { s with g_at_query_buf :=
        snprintf_s ATQUERY_SIZE (if s.g_blues_settings.motion_trigger then ['1'] else ['0']) })


/-- The command table `g_user_at_cmd_new_list`: one constructor per handler it
registers, with the argument the dispatcher passes (and, for the SIM setter,
the entry values of its uninitialised locals). -/
inductive Handler where
  | BUID_set (str : List Char)
  | BUID_query
  | BSIM_set (u : Uninit) (str : List Char)
  | BSIM_query
  | BMOD_set (str : List Char)
  | BMOD_query
  | BTRIG_set (str : List Char)
  | BTRIG_query
  | BR_exec

/-- Run one handler of the command table. -/
def Handler.run (ATQUERY_SIZE : Nat) : Handler → State → Option (ATStatus × State)
  | Handler.BUID_set str, s => at_set_blues_prod_uid str s
  | Handler.BUID_query, s => some (at_query_blues_prod_uid ATQUERY_SIZE s)
  | Handler.BSIM_set u str, s => at_set_blues_ext_sim u str s
  | Handler.BSIM_query, s => some (at_query_blues_ext_sim ATQUERY_SIZE s)
  | Handler.BMOD_set str, s => some (at_set_blues_mode str s)
  | Handler.BMOD_query, s => some (at_query_blues_mode ATQUERY_SIZE s)
  | Handler.BTRIG_set str, s => some (at_set_blues_trigger str s)
  | Handler.BTRIG_query, s => some (at_query_blues_trigger ATQUERY_SIZE s)
  | Handler.BR_exec, s => some (at_reset_blues_settings s)

/-! ## Vocabulary of the properties -/

/-- Lowercase as the specification words it: every ASCII letter `A`..`Z` is
replaced by its lowercase letter, every other character is kept. -/
def asciiLowercase (str : List Char) : List Char :=
  str.map Char.toLower

/-- No character of the string is an ASCII uppercase letter. -/
def NoUpper (str : List Char) : Prop :=
  ∀ c ∈ str, ¬ ('A' ≤ c ∧ c ≤ 'Z')

/-- The lowercase invariant of the record: neither string field holds an ASCII
uppercase letter. -/
def LowercaseInv (g : s_blues_settings) : Prop :=
  NoUpper g.product_uid ∧ NoUpper g.ext_sim_apn

instance (str : List Char) : Decidable (NoUpper str) := by
  unfold NoUpper; infer_instance

instance (g : s_blues_settings) : Decidable (LowercaseInv g) := by
  unfold LowercaseInv; infer_instance

/-- Both string fields fit their 256-byte arrays with the terminator. -/
def FieldsFit (g : s_blues_settings) : Prop :=
  g.product_uid.length ≤ 255 ∧ g.ext_sim_apn.length ≤ 255

instance (g : s_blues_settings) : Decidable (FieldsFit g) := by
  unfold FieldsFit; infer_instance

/-- The flash file exists and its content equals the in-memory record. -/
def Snapshot (s : State) : Prop :=
  s.flash = some s.g_blues_settings

instance (s : State) : Decidable (Snapshot s) := by
  unfold Snapshot; infer_instance

/-- The input begins with one of the two flag characters the setters test for
(`str[0] == '0'`, `str[0] == '1'`). -/
def BeginsWithFlag (str : List Char) : Prop :=
  str.head? = some '0' ∨ str.head? = some '1'

instance (str : List Char) : Decidable (BeginsWithFlag str) := by
  unfold BeginsWithFlag; infer_instance

/-- The validity marker after a setter: as before, or `0xAA55` written by the one
save the call performed. -/
def MarkKeptOrSaved (s t : State) : Prop :=
  t.g_blues_settings.valid_mark = s.g_blues_settings.valid_mark ∨
  (t.g_blues_settings.valid_mark = 0xAA55 ∧ t.saves = s.saves + 1)

instance (s t : State) : Decidable (MarkKeptOrSaved s t) := by
  unfold MarkKeptOrSaved; infer_instance

/-! ## Concrete device states -/

/-- A device that has no settings file and a zeroed record. -/
def blank : State :=
  { g_blues_settings := zeroed, flash := none, g_at_query_buf := [], saves := 0,
    attn_calls := [] }

/-- A record as a first configuration leaves it: lowercase product UID, eSIM. -/
def sampleRecord : s_blues_settings :=
  { valid_mark := 0xAA55, product_uid := "com.example.project:mydev".toList,
    use_ext_sim := false, ext_sim_apn := "internet".toList,
    conn_continous := false, motion_trigger := true }

/-- A configured device whose flash file mirrors the record. -/
def configured : State :=
  { g_blues_settings := sampleRecord, flash := some sampleRecord, g_at_query_buf := [],
    saves := 1, attn_calls := [] }

/-- A device holding a file whose marker is not `0xAA55`. -/
def staleFile : State :=
  { blank with flash := some { sampleRecord with valid_mark := 0xFFFF } }


/-! ## Supporting lemmas -/

theorem lowerChar_eq_toLower (c : Char) : lowerChar c = c.toLower := by
  unfold lowerChar Char.toLower
  have h1 : ('A' ≤ c) ↔ (c.toNat ≥ 65) := by
    rw [Char.le_def]; rfl
  have h2 : (c ≤ 'Z') ↔ (c.toNat ≤ 90) := by
    rw [Char.le_def]; rfl
  simp only [h1, h2]

theorem lowerLoop_eq_asciiLowercase (str : List Char) :
    lowerLoop str = asciiLowercase str := by
  induction str with
  | nil => rfl
  | cons c cs ih =>
    simp only [lowerLoop, asciiLowercase, List.map_cons, lowerChar_eq_toLower] at ih ⊢
    rw [ih]

theorem lowerLoop_length (str : List Char) : (lowerLoop str).length = str.length := by
  rw [lowerLoop_eq_asciiLowercase]; simp [asciiLowercase]

theorem ofNat_add_32_ne_percent (n : Nat) (h1 : 65 ≤ n) (h2 : n ≤ 90) :
    Char.ofNat (n + 32) ≠ '%' := by
  interval_cases n <;> decide

theorem lowerChar_ne_percent (c : Char) (h : c ≠ '%') : lowerChar c ≠ '%' := by
  unfold lowerChar
  split
  · rename_i hc
    obtain ⟨h1, h2⟩ := hc
    have h1n : 65 ≤ c.toNat := by rw [Char.le_def] at h1; exact h1
    have h2n : c.toNat ≤ 90 := by rw [Char.le_def] at h2; exact h2
    exact ofNat_add_32_ne_percent c.toNat h1n h2n
  · exact h

theorem lowerLoop_no_percent (str : List Char) (h : '%' ∉ str) : '%' ∉ lowerLoop str := by
  induction str with
  | nil => simp [lowerLoop]
  | cons c cs ih =>
    simp only [List.mem_cons, not_or] at h
    simp only [lowerLoop, List.mem_cons, not_or]
    exact ⟨fun e => lowerChar_ne_percent c (fun e2 => h.1 e2.symm) e.symm, ih h.2⟩

theorem expandFormat_of_no_percent (fmt : List Char) (h : '%' ∉ fmt) :
    expandFormat fmt = some fmt := by
  induction fmt with
  | nil => rfl
  | cons c cs ih =>
    simp only [List.mem_cons, not_or] at h
    have hc : c ≠ '%' := fun e => h.1 e.symm
    cases cs with
    | nil => simp [expandFormat, hc]
    | cons d rest =>
      rw [expandFormat, if_neg hc, ih h.2]
      rfl

theorem snprintf_fmt_of_no_percent (size : Nat) (fmt : List Char) (h : '%' ∉ fmt)
    (hlen : fmt.length < size) : snprintf_fmt size fmt = some fmt := by
  unfold snprintf_fmt
  rw [expandFormat_of_no_percent fmt h]
  simp only [Option.map_some']
  rw [List.take_of_length_le (by omega)]

theorem strtok_flag_one (a : List Char) :
    strtok ('1' :: ':' :: a) = some (['1'], a) := by
  simp [strtok, List.dropWhile, List.takeWhile]

theorem strtok_single_token (a : List Char) (hne : a ≠ []) (hc : ':' ∉ a) :
    strtok a = some (a, []) := by
  have h1 : ∀ l : List Char, ':' ∉ l → l.takeWhile (fun c => c != ':') = l := by
    intro l hl
    induction l with
    | nil => rfl
    | cons x xs ih =>
      simp only [List.mem_cons, not_or] at hl
      have hx : (x != ':') = true := by simpa using fun e => hl.1 e.symm
      rw [List.takeWhile_cons, if_pos hx, ih hl.2]
  have h2 : ∀ l : List Char, ':' ∉ l → l.dropWhile (fun c => c != ':') = [] := by
    intro l hl
    induction l with
    | nil => rfl
    | cons x xs ih =>
      simp only [List.mem_cons, not_or] at hl
      have hx : (x != ':') = true := by simpa using fun e => hl.1 e.symm
      rw [List.dropWhile_cons, if_pos hx, ih hl.2]
  cases a with
  | nil => exact absurd rfl hne
  | cons x xs =>
    have hx : (x == ':') = false := by
      simp only [List.mem_cons, not_or] at hc
      simpa using fun e => hc.1 e.symm
    unfold strtok
    rw [List.dropWhile_cons, if_neg (by simp [hx])]
    simp only [h1 _ hc, h2 _ hc, List.drop_nil]


@[simp]
theorem save_g_blues_settings (s : State) :
    (save_blues_settings s).g_blues_settings
      = { s.g_blues_settings with valid_mark := 0xAA55 } := by
  unfold save_blues_settings; split <;> rfl

@[simp]
theorem save_flash (s : State) :
    (save_blues_settings s).flash = some { s.g_blues_settings with valid_mark := 0xAA55 } := by
  unfold save_blues_settings; split <;> rfl

@[simp]
theorem save_saves (s : State) :
    (save_blues_settings s).saves = s.saves + 1 := by
  unfold save_blues_settings; split <;> rfl

@[simp]
theorem save_g_at_query_buf (s : State) :
    (save_blues_settings s).g_at_query_buf = s.g_at_query_buf := by
  unfold save_blues_settings; split <;> rfl

@[simp]
theorem save_attn_calls (s : State) :
    (save_blues_settings s).attn_calls = s.attn_calls := by
  unfold save_blues_settings; split <;> rfl

theorem query_ext_sim_buf (ATQUERY_SIZE : Nat) (s : State) :
    (at_query_blues_ext_sim ATQUERY_SIZE s).2.g_at_query_buf
      = if s.g_blues_settings.use_ext_sim then
          List.take (ATQUERY_SIZE - 1) ('1' :: ':' :: s.g_blues_settings.ext_sim_apn)
        else List.take (ATQUERY_SIZE - 1) ['0'] := by
  unfold at_query_blues_ext_sim snprintf_s
  split <;> rfl

theorem parse_ext_sim_flag_zero (u : Uninit) :
    parse_ext_sim u ['0'] = Except.ok (false, u.new_ext_sim_apn) := by
  rfl

theorem parse_ext_sim_flag_one (u : Uninit) (a : List Char) (hne : a ≠ [])
    (hcolon : ':' ∉ a) (hlen : a.length ≤ 255) :
    parse_ext_sim u ('1' :: ':' :: a) = Except.ok (true, asciiLowercase a) := by
  have htake : List.take 255 (lowerLoop a) = lowerLoop a :=
    List.take_of_length_le (by rw [lowerLoop_length]; omega)
  unfold parse_ext_sim
  rw [strtok_flag_one]
  simp only [strtok_single_token a hne hcolon, snprintf_s, List.head?_cons]
  rw [if_neg (by decide), if_pos trivial]
  show Except.ok (true, List.take 255 (lowerLoop a)) = _
  rw [htake, lowerLoop_eq_asciiLowercase]


/-! ## Properties of the store and the handlers -/

/-- C1: for every record and every prior flash state, `save_blues_settings`
followed by `read_blues_settings` into a zeroed record returns true, and the
reloaded record has `valid_mark = 0xAA55` and equals the saved record in every
settings field. -/
theorem save_then_read_restores (s : State) :
    (read_blues_settings { save_blues_settings s with g_blues_settings := zeroed }).1 = true ∧
    (read_blues_settings
        { save_blues_settings s with g_blues_settings := zeroed }).2.g_blues_settings.valid_mark
      = 0xAA55 ∧
    (read_blues_settings
        { save_blues_settings s with g_blues_settings := zeroed }).2.g_blues_settings.product_uid
      = s.g_blues_settings.product_uid ∧
    (read_blues_settings
        { save_blues_settings s with g_blues_settings := zeroed }).2.g_blues_settings.use_ext_sim
      = s.g_blues_settings.use_ext_sim ∧
    (read_blues_settings
        { save_blues_settings s with g_blues_settings := zeroed }).2.g_blues_settings.ext_sim_apn
      = s.g_blues_settings.ext_sim_apn ∧
    (read_blues_settings
        { save_blues_settings s with g_blues_settings := zeroed }).2.g_blues_settings.conn_continous
      = s.g_blues_settings.conn_continous ∧
    (read_blues_settings
        { save_blues_settings s with g_blues_settings := zeroed }).2.g_blues_settings.motion_trigger
      = s.g_blues_settings.motion_trigger := by
  simp [read_blues_settings]

/-- C2: an input shorter than 25 characters makes `at_set_blues_prod_uid` return
`AT_ERRNO_PARA_NUM` and leaves the whole state (record, flash file, save
counter) as it was. -/
theorem prod_uid_short_rejected (str : List Char) (s : State) (h : str.length < 25) :
    at_set_blues_prod_uid str s = some (ATStatus.AT_ERRNO_PARA_NUM, s) := by
  simp [at_set_blues_prod_uid, h]

/-- Witness for C2: the 24-character UID `com.example.project:myde` on a
configured device. -/
theorem prod_uid_short_rejected_witness :
    "com.example.project:myde".toList.length < 25 ∧
    at_set_blues_prod_uid "com.example.project:myde".toList configured
      = some (ATStatus.AT_ERRNO_PARA_NUM, configured) :=
  ⟨by decide, prod_uid_short_rejected _ configured (by decide)⟩

/-- C3 (the code at a failing input): the 29-character UID
`COM.EXAMPLE.PROJECT:MY%%%%DEV` is accepted, but what is stored is
`com.example.project:my%dev`, not the lowercase form of the input: the input is
used as the `snprintf` format twice and each pass halves the `%%`. -/
theorem prod_uid_percent_input_altered :
    (at_set_blues_prod_uid "COM.EXAMPLE.PROJECT:MY%%%%DEV".toList blank).map
        (fun r => (r.1, r.2.g_blues_settings.product_uid))
      = some (ATStatus.AT_SUCCESS, "com.example.project:my%dev".toList) ∧
    asciiLowercase "COM.EXAMPLE.PROJECT:MY%%%%DEV".toList
      = "com.example.project:my%%%%dev".toList := by
  decide

set_option maxRecDepth 100000 in
/-- The second slip behind C3: a 255-character UID is cut to 254 characters by
`snprintf(new_uid, 255, str)`. -/
theorem prod_uid_255_chars_truncated :
    (at_set_blues_prod_uid (List.replicate 255 'a') blank).map
        (fun r => (r.1, r.2.g_blues_settings.product_uid))
      = some (ATStatus.AT_SUCCESS, List.replicate 254 'a') := by
  decide

/-- The scenario quoted by C3: `COM.EXAMPLE.PROJECT:MYDEV` is stored, and
queried, as `com.example.project:mydev`. -/
theorem prod_uid_example_scenario :
    (at_set_blues_prod_uid "COM.EXAMPLE.PROJECT:MYDEV".toList blank).map
        (fun r => (r.1, r.2.g_blues_settings.product_uid,
          (at_query_blues_prod_uid 128 r.2).2.g_at_query_buf))
      = some (ATStatus.AT_SUCCESS, "com.example.project:mydev".toList,
          "com.example.project:mydev".toList) := by
  decide

/-- What holds of C3 on the code: a UID of 25 to 254 characters without `%` is
accepted and stored in its lowercase form, and the query writes that string
when it fits the reply buffer. -/
theorem prod_uid_set_then_query (ATQUERY_SIZE : Nat) (str : List Char) (s : State)
    (hmin : 25 ≤ str.length) (hmax : str.length ≤ 254) (hpct : '%' ∉ str)
    (hbuf : str.length < ATQUERY_SIZE) :
    ∃ st, at_set_blues_prod_uid str s = some (ATStatus.AT_SUCCESS, st) ∧
      st.g_blues_settings.product_uid = asciiLowercase str ∧
      (at_query_blues_prod_uid ATQUERY_SIZE st).2.g_at_query_buf = asciiLowercase str := by
  have hlow : '%' ∉ asciiLowercase str := by
    rw [← lowerLoop_eq_asciiLowercase]; exact lowerLoop_no_percent str hpct
  have hlen : (asciiLowercase str).length = str.length := by
    rw [← lowerLoop_eq_asciiLowercase]; exact lowerLoop_length str
  have h255 : snprintf_fmt 255 (asciiLowercase str) = some (asciiLowercase str) :=
    snprintf_fmt_of_no_percent 255 _ hlow (by omega)
  have h256 : snprintf_fmt 256 (asciiLowercase str) = some (asciiLowercase str) :=
    snprintf_fmt_of_no_percent 256 _ hlow (by omega)
  have htake : List.take (ATQUERY_SIZE - 1) (asciiLowercase str) = asciiLowercase str :=
    List.take_of_length_le (by omega)
  unfold at_set_blues_prod_uid
  rw [if_neg (by omega), lowerLoop_eq_asciiLowercase, h255]
  by_cases heq : asciiLowercase str = s.g_blues_settings.product_uid
  · rw [heq] at htake
    simp [heq, at_query_blues_prod_uid, snprintf_s, htake]
  · simp [heq, h256, at_query_blues_prod_uid, snprintf_s, htake]

/-- C4 (amended): for every prior state and reply-buffer size, (1) a call
`at_set_blues_ext_sim("0")` that completes (the uninitialised APN buffer equals
the product UID, or is a format string `snprintf` can expand without arguments)
returns `AT_SUCCESS` and `at_query_blues_ext_sim` then writes exactly `0`; (2)
for every non-empty APN `a` without `:` and `%`, at most 255 characters long,
whose lowercase form differs from the current product UID and fits the reply
buffer with its `1:` prefix, `at_set_blues_ext_sim("1:" ++ a)` returns
`AT_SUCCESS` and the query then writes exactly `1:` followed by the lowercase
form of `a`. -/
theorem ext_sim_set_then_query (ATQUERY_SIZE : Nat) (s : State) :
    (∀ u : Uninit, 2 ≤ ATQUERY_SIZE →
      (u.new_ext_sim_apn = s.g_blues_settings.product_uid ∨
        expandFormat u.new_ext_sim_apn ≠ none) →
      ∃ st, at_set_blues_ext_sim u ['0'] s = some (ATStatus.AT_SUCCESS, st) ∧
        (at_query_blues_ext_sim ATQUERY_SIZE st).2.g_at_query_buf = ['0']) ∧
    (∀ (u : Uninit) (a : List Char), a ≠ [] → ':' ∉ a → '%' ∉ a → a.length ≤ 255 →
      a.length + 2 < ATQUERY_SIZE →
      asciiLowercase a ≠ s.g_blues_settings.product_uid →
      ∃ st, at_set_blues_ext_sim u ('1' :: ':' :: a) s = some (ATStatus.AT_SUCCESS, st) ∧
        (at_query_blues_ext_sim ATQUERY_SIZE st).2.g_at_query_buf
          = '1' :: ':' :: asciiLowercase a) := by
  constructor
  · intro u hQ hu
    have htake : List.take (ATQUERY_SIZE - 1) ['0'] = ['0'] :=
      List.take_of_length_le (by simp; omega)
    unfold at_set_blues_ext_sim
    rw [parse_ext_sim_flag_zero]
    by_cases heq : u.new_ext_sim_apn = s.g_blues_settings.product_uid
    · by_cases hx : s.g_blues_settings.use_ext_sim = true
      · simp [heq, hx, query_ext_sim_buf, htake]
      · simp [heq, hx, query_ext_sim_buf, htake]
    · have hdef : expandFormat u.new_ext_sim_apn ≠ none := hu.resolve_left heq
      obtain ⟨out, hout⟩ := Option.ne_none_iff_exists'.mp hdef
      by_cases hx : s.g_blues_settings.use_ext_sim = true
      · simp [heq, hx, hout, snprintf_fmt, query_ext_sim_buf, htake]
      · simp [heq, hx, hout, snprintf_fmt, query_ext_sim_buf, htake]
  · intro u a hne hcolon hpct hlen hbuf hdiff
    have hlow : '%' ∉ asciiLowercase a := by
      rw [← lowerLoop_eq_asciiLowercase]; exact lowerLoop_no_percent a hpct
    have hlowlen : (asciiLowercase a).length = a.length := by
      rw [← lowerLoop_eq_asciiLowercase]; exact lowerLoop_length a
    have hfmt : snprintf_fmt 256 (asciiLowercase a) = some (asciiLowercase a) :=
      snprintf_fmt_of_no_percent 256 _ hlow (by omega)
    have htake : List.take (ATQUERY_SIZE - 1) ('1' :: ':' :: asciiLowercase a)
        = '1' :: ':' :: asciiLowercase a :=
      List.take_of_length_le (by simp [hlowlen]; omega)
    unfold at_set_blues_ext_sim
    rw [parse_ext_sim_flag_one u a hne hcolon hlen]
    by_cases hx : s.g_blues_settings.use_ext_sim = true
    · simp [hdiff, hx, hfmt, query_ext_sim_buf, htake]
    · simp [hdiff, hx, hfmt, query_ext_sim_buf, htake]


/-- Witness for C4: on the configured device with a 128-byte reply buffer, `0`
is queried as `0` and `1:APN1` as `1:apn1`. -/
theorem ext_sim_set_then_query_witness :
    (∃ st, at_set_blues_ext_sim ⟨false, []⟩ ['0'] configured
        = some (ATStatus.AT_SUCCESS, st) ∧
      (at_query_blues_ext_sim 128 st).2.g_at_query_buf = ['0']) ∧
    (∃ st, at_set_blues_ext_sim ⟨false, []⟩ ('1' :: ':' :: "APN1".toList) configured
        = some (ATStatus.AT_SUCCESS, st) ∧
      (at_query_blues_ext_sim 128 st).2.g_at_query_buf
        = '1' :: ':' :: asciiLowercase "APN1".toList) :=
  ⟨(ext_sim_set_then_query 128 configured).1 ⟨false, []⟩ (by decide) (Or.inr (by decide)),
   (ext_sim_set_then_query 128 configured).2 ⟨false, []⟩ "APN1".toList
      (by decide) (by decide) (by decide) (by decide) (by decide) (by decide)⟩

set_option maxRecDepth 100000 in
/-- C4 (counterexample): the APN made of 256 letters `a` has no `:`, yet after
`at_set_blues_ext_sim("1:" ++ apn)` the query (512-byte reply buffer) writes `1:`
followed by only 255 letters: the APN is cut to the 255 characters its field
holds. -/
theorem ext_sim_long_apn_not_roundtripped :
    (at_set_blues_ext_sim ⟨false, []⟩ ('1' :: ':' :: List.replicate 256 'a') blank).map
        (fun r => (r.1, (at_query_blues_ext_sim 512 r.2).2.g_at_query_buf))
      = some (ATStatus.AT_SUCCESS, '1' :: ':' :: List.replicate 255 'a') ∧
    ('1' :: ':' :: List.replicate 255 'a'
      ≠ '1' :: ':' :: asciiLowercase (List.replicate 256 'a')) := by
  decide

/-- The slip left out of the amended C4: an APN equal to the stored product UID
is not stored, the query keeps answering with the previous APN. -/
theorem ext_sim_apn_equal_to_uid_not_stored :
    (at_set_blues_ext_sim ⟨false, []⟩ "1:apn1".toList
        { configured with
          g_blues_settings := { sampleRecord with product_uid := "apn1".toList } }).map
        (fun r => (r.1, (at_query_blues_ext_sim 128 r.2).2.g_at_query_buf))
      = some (ATStatus.AT_SUCCESS, "1:internet".toList) := by
  decide

/-- C5 (the code at a failing input): on the configured device the same accepted
input `1:apn1` is given twice to `at_set_blues_ext_sim`; the second call changes
no field of the record and still performs a save. -/
theorem ext_sim_same_value_saves_again :
    ∃ st1 st2,
      at_set_blues_ext_sim ⟨false, []⟩ "1:apn1".toList configured
        = some (ATStatus.AT_SUCCESS, st1) ∧
      at_set_blues_ext_sim ⟨false, []⟩ "1:apn1".toList st1
        = some (ATStatus.AT_SUCCESS, st2) ∧
      st2.g_blues_settings = st1.g_blues_settings ∧
      st2.saves = st1.saves + 1 :=
  ⟨_, _, rfl, rfl, rfl, rfl⟩

/-- C6: the input `1` (external SIM, no APN token) makes `at_set_blues_ext_sim`
return `AT_ERRNO_PARA_NUM` and leaves the whole state (every record field, the
flash file, the save counter) as it was, for every prior state and every
content of the uninitialised locals. -/
theorem ext_sim_missing_apn_rejected (u : Uninit) (s : State) :
    at_set_blues_ext_sim u ['1'] s = some (ATStatus.AT_ERRNO_PARA_NUM, s) := by
  rfl

/-- C7: `read_blues_settings` returns true exactly when the file exists and the
marker stored in it is `0xAA55`. -/
theorem read_true_iff_valid_file (s : State) :
    (read_blues_settings s).1 = true ↔
      ∃ image, s.flash = some image ∧ image.valid_mark = 0xAA55 := by
  unfold read_blues_settings
  cases hf : s.flash with
  | none => simp
  | some image =>
    by_cases hm : image.valid_mark = 0xAA55 <;> simp [hm]

/-- C8: with no settings file, `read_blues_settings` returns false and leaves the
record and the (absent) file as they were. -/
theorem read_without_file (s : State) (h : s.flash = none) :
    read_blues_settings s = (false, s) := by
  simp [read_blues_settings, h]

/-- Witness for C8: the blank device. -/
theorem read_without_file_witness :
    blank.flash = none ∧ read_blues_settings blank = (false, blank) :=
  ⟨rfl, read_without_file blank rfl⟩

/-- C9: `at_reset_blues_settings` returns `AT_SUCCESS`, keeps the record, leaves
no file, and a following `read_blues_settings` returns false. -/
theorem reset_removes_file (s : State) :
    (at_reset_blues_settings s).1 = ATStatus.AT_SUCCESS ∧
    (at_reset_blues_settings s).2.g_blues_settings = s.g_blues_settings ∧
    (at_reset_blues_settings s).2.flash = none ∧
    (read_blues_settings (at_reset_blues_settings s).2).1 = false := by
  cases hf : s.flash <;> simp [at_reset_blues_settings, read_blues_settings, hf]

/-- C10 (the code at a failing input): the configured record satisfies the
lowercase invariant; the handler call `AT+BSIM=0`, entered with `X` in the
uninitialised local `new_ext_sim_apn`, returns `AT_SUCCESS` and leaves
`ext_sim_apn = "X"`, which breaks the invariant. -/
theorem ext_sim_zero_breaks_lowercase :
    LowercaseInv configured.g_blues_settings ∧
    ∃ st, Handler.run 128 (Handler.BSIM_set ⟨false, ['X']⟩ ['0']) configured
        = some (ATStatus.AT_SUCCESS, st) ∧
      st.g_blues_settings.ext_sim_apn = ['X'] ∧
      ¬ LowercaseInv st.g_blues_settings :=
  ⟨by decide, _, rfl, rfl, by decide⟩

/-! ## Input validation, status codes and the attention line -/

theorem ext_sim_parse_error (u : Uninit) (str : List Char) (s : State) (e : ATStatus)
    (h : parse_ext_sim u str = Except.error e) :
    at_set_blues_ext_sim u str s = some (e, s) := by
  unfold at_set_blues_ext_sim
  rw [h]

theorem parse_ext_sim_rejects (u : Uninit) (str param rest : List Char)
    (htok : strtok str = some (param, rest))
    (hrej : ¬ (param.head? = some '0' ∨ (param.head? = some '1' ∧ strtok rest ≠ none))) :
    parse_ext_sim u str = Except.error ATStatus.AT_ERRNO_PARA_NUM := by
  unfold parse_ext_sim
  rw [htok]
  simp only [not_or, not_and, not_not] at hrej
  obtain ⟨h0, h1⟩ := hrej
  simp only [if_neg h0]
  by_cases hone : param.head? = some '1'
  · simp only [if_pos hone, h1 hone]
  · simp only [if_neg hone]

/-- C11 (amended): for every input that has a first colon-delimited token,
`at_set_blues_ext_sim` returns `AT_SUCCESS` only when that token begins with
`0`, or begins with `1` and a second token follows; in every other such case it
returns `AT_ERRNO_PARA_NUM` and the whole state (record, flash file) is as
before. -/
theorem ext_sim_accepts_by_first_char (u : Uninit) (str param rest : List Char) (s : State)
    (htok : strtok str = some (param, rest)) :
    (∀ st, at_set_blues_ext_sim u str s = some (ATStatus.AT_SUCCESS, st) →
      param.head? = some '0' ∨ (param.head? = some '1' ∧ strtok rest ≠ none)) ∧
    (¬ (param.head? = some '0' ∨ (param.head? = some '1' ∧ strtok rest ≠ none)) →
      at_set_blues_ext_sim u str s = some (ATStatus.AT_ERRNO_PARA_NUM, s)) := by
  have hrej : ¬ (param.head? = some '0' ∨ (param.head? = some '1' ∧ strtok rest ≠ none)) →
      at_set_blues_ext_sim u str s = some (ATStatus.AT_ERRNO_PARA_NUM, s) := fun h =>
    ext_sim_parse_error u str s _ (parse_ext_sim_rejects u str param rest htok h)
  refine ⟨fun st hst => ?_, hrej⟩
  by_contra hn
  rw [hrej hn] at hst
  cases hst

/-- Witness for C11: `2:apn` has the first token `2` and is rejected with the
state unchanged. -/
theorem ext_sim_accepts_by_first_char_witness :
    strtok "2:apn".toList = some (['2'], "apn".toList) ∧
    at_set_blues_ext_sim ⟨false, []⟩ "2:apn".toList configured
      = some (ATStatus.AT_ERRNO_PARA_NUM, configured) :=
  ⟨by decide,
    (ext_sim_accepts_by_first_char ⟨false, []⟩ "2:apn".toList ['2'] "apn".toList configured
      (by decide)).2 (by decide)⟩

/-- C11 (counterexample): the first token of `1x:apn` is `1x`, neither `0` nor
`1`, and the call returns `AT_SUCCESS` with the external SIM selected. -/
theorem ext_sim_accepts_longer_flag_token :
    (strtok "1x:apn".toList).map Prod.fst = some "1x".toList ∧
    "1x".toList ≠ "0".toList ∧ "1x".toList ≠ "1".toList ∧
    (at_set_blues_ext_sim ⟨false, []⟩ "1x:apn".toList configured).map
        (fun r => (r.1, r.2.g_blues_settings.use_ext_sim, r.2.g_blues_settings.ext_sim_apn))
      = some (ATStatus.AT_SUCCESS, true, "apn".toList) := by
  decide

/-- The slip left out of the amended C11: the empty input has no token, the
function falls through to the comparison with both locals uninitialised,
returns `AT_SUCCESS` and stores what the locals held. -/
theorem ext_sim_empty_input_accepted :
    (at_set_blues_ext_sim ⟨true, ['X']⟩ [] configured).map
        (fun r => (r.1, r.2.g_blues_settings.use_ext_sim, r.2.g_blues_settings.ext_sim_apn,
          r.2.saves))
      = some (ATStatus.AT_SUCCESS, true, ['X'], 2) ∧
    (at_set_blues_ext_sim ⟨true, ['X']⟩ [':', ':'] configured).map (fun r => r.1)
      = some ATStatus.AT_SUCCESS := by
  decide

theorem mode_rejects (str : List Char) (s : State) (h : ¬ BeginsWithFlag str) :
    at_set_blues_mode str s = (ATStatus.AT_ERRNO_PARA_NUM, s) := by
  unfold BeginsWithFlag at h
  simp only [not_or] at h
  unfold at_set_blues_mode
  rw [if_neg h.1, if_neg h.2]

theorem trigger_rejects (str : List Char) (s : State) (h : ¬ BeginsWithFlag str) :
    at_set_blues_trigger str s = (ATStatus.AT_ERRNO_PARA_NUM, s) := by
  unfold BeginsWithFlag at h
  simp only [not_or] at h
  unfold at_set_blues_trigger
  rw [if_neg h.1, if_neg h.2]

/-- The flag character for a requested value. -/
theorem flagChar_cases (str : List Char) (h : BeginsWithFlag str) :
    ∃ b : Bool, str.head? = some (if b then '1' else '0') := by
  rcases h with h | h
  · exact ⟨false, h⟩
  · exact ⟨true, h⟩

theorem mode_of_flag (str : List Char) (s : State) (b : Bool)
    (h : str.head? = some (if b then '1' else '0')) :
    at_set_blues_mode str s =
      (ATStatus.AT_SUCCESS,
        if s.g_blues_settings.conn_continous = b then
          { s with attn_calls :=
              (if b then AttnCall.blues_enable_attn else AttnCall.blues_disable_attn)
                :: s.attn_calls }
        else
          save_blues_settings
            { s with
              g_blues_settings := { s.g_blues_settings with conn_continous := b },
              attn_calls :=
                (if b then AttnCall.blues_enable_attn else AttnCall.blues_disable_attn)
                  :: s.attn_calls }) := by
  cases b <;> cases hb : s.g_blues_settings.conn_continous <;>
    simp [at_set_blues_mode, h, hb]

theorem trigger_of_flag (str : List Char) (s : State) (b : Bool)
    (h : str.head? = some (if b then '1' else '0')) :
    at_set_blues_trigger str s =
      (ATStatus.AT_SUCCESS,
        if s.g_blues_settings.motion_trigger = b then
          { s with attn_calls :=
              (if b then AttnCall.blues_enable_attn else AttnCall.blues_disable_attn)
                :: s.attn_calls }
        else
          save_blues_settings
            { s with
              g_blues_settings := { s.g_blues_settings with motion_trigger := b },
              attn_calls :=
                (if b then AttnCall.blues_enable_attn else AttnCall.blues_disable_attn)
                  :: s.attn_calls }) := by
  cases b <;> cases hb : s.g_blues_settings.motion_trigger <;>
    simp [at_set_blues_trigger, h, hb]

theorem mode_accepts (str : List Char) (s : State) (h : BeginsWithFlag str) :
    (at_set_blues_mode str s).1 = ATStatus.AT_SUCCESS := by
  obtain ⟨b, hb⟩ := flagChar_cases str h
  rw [mode_of_flag str s b hb]

theorem trigger_accepts (str : List Char) (s : State) (h : BeginsWithFlag str) :
    (at_set_blues_trigger str s).1 = ATStatus.AT_SUCCESS := by
  obtain ⟨b, hb⟩ := flagChar_cases str h
  rw [trigger_of_flag str s b hb]

/-- C12 (amended): whenever a setter rejects an input because the flag
character is neither `0` nor `1` (first character of the first token in
`at_set_blues_ext_sim`, first character of the input in `at_set_blues_mode` and
`at_set_blues_trigger`), the returned code is `AT_ERRNO_PARA_NUM`, the same
code as for a missing APN, and the state is unchanged. -/
theorem invalid_flag_returns_para_num (u : Uninit) (str : List Char) (s : State) :
    (∀ param rest, strtok str = some (param, rest) → ¬ BeginsWithFlag param →
      at_set_blues_ext_sim u str s = some (ATStatus.AT_ERRNO_PARA_NUM, s)) ∧
    (¬ BeginsWithFlag str →
      at_set_blues_mode str s = (ATStatus.AT_ERRNO_PARA_NUM, s) ∧
      at_set_blues_trigger str s = (ATStatus.AT_ERRNO_PARA_NUM, s)) := by
  refine ⟨fun param rest htok hflag => ?_, fun h => ⟨mode_rejects str s h, trigger_rejects str s h⟩⟩
  apply ext_sim_parse_error
  apply parse_ext_sim_rejects u str param rest htok
  unfold BeginsWithFlag at hflag
  simp only [not_or] at hflag
  rintro (h | ⟨h, _⟩)
  · exact hflag.1 h
  · exact hflag.2 h

/-- Witness for C12: the flag `2` is rejected with `AT_ERRNO_PARA_NUM` by the
three setters. -/
theorem invalid_flag_returns_para_num_witness :
    at_set_blues_ext_sim ⟨false, []⟩ "2:apn".toList configured
      = some (ATStatus.AT_ERRNO_PARA_NUM, configured) ∧
    at_set_blues_mode ['2'] configured = (ATStatus.AT_ERRNO_PARA_NUM, configured) ∧
    at_set_blues_trigger ['2'] configured = (ATStatus.AT_ERRNO_PARA_NUM, configured) :=
  ⟨(invalid_flag_returns_para_num ⟨false, []⟩ "2:apn".toList configured).1
      ['2'] "apn".toList (by decide) (by decide),
   (invalid_flag_returns_para_num ⟨false, []⟩ ['2'] configured).2 (by decide)⟩

/-- C12 (counterexample): the flag `2` is present and not an accepted value, and
each of the three setters answers with the parameter-count code
`AT_ERRNO_PARA_NUM`, not with the parameter-value code. -/
theorem invalid_flag_not_para_fail :
    (at_set_blues_mode ['2'] blank).1 = ATStatus.AT_ERRNO_PARA_NUM ∧
    (at_set_blues_trigger ['2'] blank).1 = ATStatus.AT_ERRNO_PARA_NUM ∧
    (at_set_blues_ext_sim ⟨false, []⟩ ['2'] blank).map (fun r => r.1)
      = some ATStatus.AT_ERRNO_PARA_NUM ∧
    ATStatus.AT_ERRNO_PARA_NUM ≠ ATStatus.AT_ERRNO_PARA_FAIL := by
  decide

/-- C13: for `c` one of `0` and `1`, `at_set_blues_mode(c)` returns `AT_SUCCESS`
and `at_query_blues_mode` then writes exactly `c` (the reply buffer holding at
least one character and the terminator); the same for `at_set_blues_trigger` and
`at_query_blues_trigger`; and the save counter grows by one exactly when the
stored flag differed from the requested value, and otherwise stays. -/
theorem mode_trigger_set_then_query (ATQUERY_SIZE : Nat) (c : Char) (s : State)
    (hQ : 2 ≤ ATQUERY_SIZE) (hc : c = '0' ∨ c = '1') :
    ((at_set_blues_mode [c] s).1 = ATStatus.AT_SUCCESS ∧
      (at_query_blues_mode ATQUERY_SIZE (at_set_blues_mode [c] s).2).2.g_at_query_buf = [c] ∧
      ((at_set_blues_mode [c] s).2.saves = s.saves + 1 ↔
        s.g_blues_settings.conn_continous ≠ decide (c = '1')) ∧
      ((at_set_blues_mode [c] s).2.saves = s.saves ↔
        s.g_blues_settings.conn_continous = decide (c = '1'))) ∧
    ((at_set_blues_trigger [c] s).1 = ATStatus.AT_SUCCESS ∧
      (at_query_blues_trigger ATQUERY_SIZE (at_set_blues_trigger [c] s).2).2.g_at_query_buf
        = [c] ∧
      ((at_set_blues_trigger [c] s).2.saves = s.saves + 1 ↔
        s.g_blues_settings.motion_trigger ≠ decide (c = '1')) ∧
      ((at_set_blues_trigger [c] s).2.saves = s.saves ↔
        s.g_blues_settings.motion_trigger = decide (c = '1'))) := by
  have htake : ∀ d : Char, List.take (ATQUERY_SIZE - 1) [d] = [d] := fun d =>
    List.take_of_length_le (by simp; omega)
  rcases hc with rfl | rfl
  · constructor
    · cases hb : s.g_blues_settings.conn_continous <;>
        simp [at_set_blues_mode, at_query_blues_mode, snprintf_s, hb, htake]
    · cases hb : s.g_blues_settings.motion_trigger <;>
        simp [at_set_blues_trigger, at_query_blues_trigger, snprintf_s, hb, htake]
  · constructor
    · cases hb : s.g_blues_settings.conn_continous <;>
        simp [at_set_blues_mode, at_query_blues_mode, snprintf_s, hb, htake]
    · cases hb : s.g_blues_settings.motion_trigger <;>
        simp [at_set_blues_trigger, at_query_blues_trigger, snprintf_s, hb, htake]

/-- Witness for C13: `1` on the configured device (periodic connection, motion
trigger on) with a 128-byte reply buffer. -/
theorem mode_trigger_set_then_query_witness :
    (at_set_blues_mode ['1'] configured).1 = ATStatus.AT_SUCCESS ∧
    (at_query_blues_mode 128 (at_set_blues_mode ['1'] configured).2).2.g_at_query_buf = ['1'] ∧
    (at_set_blues_mode ['1'] configured).2.saves = configured.saves + 1 ∧
    (at_set_blues_trigger ['1'] configured).1 = ATStatus.AT_SUCCESS ∧
    (at_query_blues_trigger 128 (at_set_blues_trigger ['1'] configured).2).2.g_at_query_buf
      = ['1'] ∧
    (at_set_blues_trigger ['1'] configured).2.saves = configured.saves :=
  have h := mode_trigger_set_then_query 128 '1' configured (by decide) (Or.inr rfl)
  ⟨h.1.1, h.1.2.1, h.1.2.2.1.mpr (by decide), h.2.1, h.2.2.1, h.2.2.2.2.mpr (by decide)⟩

/-- C14 (amended): `at_set_blues_mode` and `at_set_blues_trigger` look at the
first character only. They return `AT_SUCCESS` exactly when the input begins
with `0` or `1`, whatever follows; for every other input, the empty string
included, they return `AT_ERRNO_PARA_NUM` and the whole state is as before:
record, flash file, and no attention-line call made. -/
theorem mode_trigger_accept_by_first_char (str : List Char) (s : State) :
    ((at_set_blues_mode str s).1 = ATStatus.AT_SUCCESS ↔ BeginsWithFlag str) ∧
    ((at_set_blues_trigger str s).1 = ATStatus.AT_SUCCESS ↔ BeginsWithFlag str) ∧
    (¬ BeginsWithFlag str →
      at_set_blues_mode str s = (ATStatus.AT_ERRNO_PARA_NUM, s) ∧
      at_set_blues_trigger str s = (ATStatus.AT_ERRNO_PARA_NUM, s)) := by
  refine ⟨⟨fun h => ?_, mode_accepts str s⟩, ⟨fun h => ?_, trigger_accepts str s⟩,
    fun h => ⟨mode_rejects str s h, trigger_rejects str s h⟩⟩
  · by_contra hn
    rw [mode_rejects str s hn] at h
    cases h
  · by_contra hn
    rw [trigger_rejects str s hn] at h
    cases h

/-- Witness for C14: the empty string and `x1` are rejected, state unchanged. -/
theorem mode_trigger_accept_by_first_char_witness :
    at_set_blues_mode [] configured = (ATStatus.AT_ERRNO_PARA_NUM, configured) ∧
    at_set_blues_trigger ['x', '1'] configured = (ATStatus.AT_ERRNO_PARA_NUM, configured) :=
  ⟨((mode_trigger_accept_by_first_char [] configured).2.2 (by decide)).1,
   ((mode_trigger_accept_by_first_char ['x', '1'] configured).2.2 (by decide)).2⟩

/-- C14 (counterexample): `01` and `1abc` are not the single characters `0` or
`1`, yet `at_set_blues_mode("01")` and `at_set_blues_trigger("1abc")` return
`AT_SUCCESS` and call an attention-line function. -/
theorem mode_trigger_accept_longer_input :
    "01".toList ≠ "0".toList ∧ "01".toList ≠ "1".toList ∧
    (at_set_blues_mode "01".toList configured).1 = ATStatus.AT_SUCCESS ∧
    (at_set_blues_mode "01".toList configured).2.attn_calls = [AttnCall.blues_disable_attn] ∧
    "1abc".toList ≠ "0".toList ∧ "1abc".toList ≠ "1".toList ∧
    (at_set_blues_trigger "1abc".toList configured).1 = ATStatus.AT_SUCCESS ∧
    (at_set_blues_trigger "1abc".toList configured).2.attn_calls
      = [AttnCall.blues_enable_attn] := by
  decide

/-- C15: an input beginning with `1` makes `at_set_blues_mode` and
`at_set_blues_trigger` add exactly one call, `blues_enable_attn`, to the calls
made so far; an input beginning with `0` adds exactly one call,
`blues_disable_attn`; this holds whatever the stored flags are. So after mode
`1` followed by trigger `0` the last call is `blues_disable_attn` while
`conn_continous` is true. -/
theorem attn_call_follows_input (rest rest2 : List Char) (s : State) :
    (at_set_blues_mode ('1' :: rest) s).2.attn_calls
      = AttnCall.blues_enable_attn :: s.attn_calls ∧
    (at_set_blues_mode ('0' :: rest) s).2.attn_calls
      = AttnCall.blues_disable_attn :: s.attn_calls ∧
    (at_set_blues_trigger ('1' :: rest) s).2.attn_calls
      = AttnCall.blues_enable_attn :: s.attn_calls ∧
    (at_set_blues_trigger ('0' :: rest) s).2.attn_calls
      = AttnCall.blues_disable_attn :: s.attn_calls ∧
    (at_set_blues_trigger ('0' :: rest2) (at_set_blues_mode ('1' :: rest) s).2).2.attn_calls
      = AttnCall.blues_disable_attn :: AttnCall.blues_enable_attn :: s.attn_calls ∧
    (at_set_blues_trigger ('0' :: rest2)
        (at_set_blues_mode ('1' :: rest) s).2).2.g_blues_settings.conn_continous = true := by
  have m1 := fun t => mode_of_flag ('1' :: rest) t true rfl
  have m0 := fun t => mode_of_flag ('0' :: rest) t false rfl
  have t1 := fun t => trigger_of_flag ('1' :: rest) t true rfl
  have t0 := fun (r : List Char) t => trigger_of_flag ('0' :: r) t false rfl
  simp only [m1, m0, t1, t0]
  cases hc : s.g_blues_settings.conn_continous <;>
    cases hm : s.g_blues_settings.motion_trigger <;> simp [hc, hm]

/-! ## APN change detection, field bounds, snapshot and frame -/

theorem parse_ext_sim_flag_one_any_length (u : Uninit) (a : List Char) (hne : a ≠ [])
    (hcolon : ':' ∉ a) :
    parse_ext_sim u ('1' :: ':' :: a) = Except.ok (true, (asciiLowercase a).take 255) := by
  unfold parse_ext_sim
  rw [strtok_flag_one]
  simp only [strtok_single_token a hne hcolon, snprintf_s, List.head?_cons]
  rw [if_neg (by decide), if_pos trivial]
  show Except.ok (true, List.take 255 (lowerLoop a)) = _
  rw [lowerLoop_eq_asciiLowercase]

theorem snprintf_fmt_length (size : Nat) (fmt out : List Char)
    (h : snprintf_fmt size fmt = some out) : out.length ≤ size - 1 := by
  unfold snprintf_fmt at h
  cases he : expandFormat fmt with
  | none => rw [he] at h; cases h
  | some x =>
    rw [he] at h
    simp only [Option.map_some', Option.some.injEq] at h
    rw [← h]
    exact List.length_take_le _ _

/-- C16 (amended): for every prior state and every input `"1:" ++ a` with `a`
non-empty and free of `:` and `%`, let `a'` be the first 255 characters of the
lowercase form of `a`. The call returns `AT_SUCCESS` with the external SIM
selected; `ext_sim_apn` is overwritten with `a'` if `a'` differs from the
current `product_uid` and is left as it was otherwise (the previous
`ext_sim_apn` is not consulted); the save counter grows by one if `use_ext_sim`
was false or `a'` differs from `product_uid`, and stays otherwise. -/
theorem ext_sim_apn_compared_with_uid (u : Uninit) (a : List Char) (s : State)
    (hne : a ≠ []) (hcolon : ':' ∉ a) (hpct : '%' ∉ a) :
    ∃ st, at_set_blues_ext_sim u ('1' :: ':' :: a) s = some (ATStatus.AT_SUCCESS, st) ∧
      st.g_blues_settings.use_ext_sim = true ∧
      st.g_blues_settings.ext_sim_apn =
        (if (asciiLowercase a).take 255 ≠ s.g_blues_settings.product_uid
          then (asciiLowercase a).take 255 else s.g_blues_settings.ext_sim_apn) ∧
      st.saves =
        (if s.g_blues_settings.use_ext_sim = false ∨
            (asciiLowercase a).take 255 ≠ s.g_blues_settings.product_uid
          then s.saves + 1 else s.saves) := by
  have hlow : '%' ∉ (asciiLowercase a).take 255 := by
    intro hmem
    have := List.mem_of_mem_take hmem
    rw [← lowerLoop_eq_asciiLowercase] at this
    exact lowerLoop_no_percent a hpct this
  have hfmt : snprintf_fmt 256 ((asciiLowercase a).take 255)
      = some ((asciiLowercase a).take 255) :=
    snprintf_fmt_of_no_percent 256 _ hlow
      (Nat.lt_succ_of_le (List.length_take_le _ _))
  unfold at_set_blues_ext_sim
  rw [parse_ext_sim_flag_one_any_length u a hne hcolon]
  by_cases hd : (asciiLowercase a).take 255 = s.g_blues_settings.product_uid
  · cases hx : s.g_blues_settings.use_ext_sim <;> simp [hd, hx]
  · cases hx : s.g_blues_settings.use_ext_sim <;> simp [hd, hx, hfmt]

/-- Witness for C16: on the configured device (eSIM, APN `internet`) the input
`1:APN1` stores `apn1` and saves. -/
theorem ext_sim_apn_compared_with_uid_witness :
    ∃ st, at_set_blues_ext_sim ⟨false, []⟩ ('1' :: ':' :: "APN1".toList) configured
        = some (ATStatus.AT_SUCCESS, st) ∧
      st.g_blues_settings.use_ext_sim = true ∧
      st.g_blues_settings.ext_sim_apn =
        (if (asciiLowercase "APN1".toList).take 255 ≠ configured.g_blues_settings.product_uid
          then (asciiLowercase "APN1".toList).take 255
          else configured.g_blues_settings.ext_sim_apn) ∧
      st.saves =
        (if configured.g_blues_settings.use_ext_sim = false ∨
            (asciiLowercase "APN1".toList).take 255 ≠ configured.g_blues_settings.product_uid
          then configured.saves + 1 else configured.saves) :=
  ext_sim_apn_compared_with_uid ⟨false, []⟩ "APN1".toList configured
    (by decide) (by decide) (by decide)

set_option maxRecDepth 100000 in
/-- C16 (counterexample): the APN of 256 letters `a` is free of `:` and its
lowercase form differs from the (empty) product UID, yet `ext_sim_apn` is not
overwritten with it: the field receives its first 255 characters. -/
theorem ext_sim_long_apn_stored_truncated :
    asciiLowercase (List.replicate 256 'a') ≠ blank.g_blues_settings.product_uid ∧
    (at_set_blues_ext_sim ⟨false, []⟩ ('1' :: ':' :: List.replicate 256 'a') blank).map
        (fun r => r.2.g_blues_settings.ext_sim_apn)
      = some (List.replicate 255 'a') ∧
    List.replicate 255 'a' ≠ asciiLowercase (List.replicate 256 'a') := by
  decide

theorem strtok_subset (str tok rest : List Char) (h : strtok str = some (tok, rest)) :
    (∀ c ∈ tok, c ∈ str) ∧ (∀ c ∈ rest, c ∈ str) := by
  unfold strtok at h
  have hsub : (str.dropWhile (fun c => c == ':')).Sublist str := List.dropWhile_sublist _
  cases hd : str.dropWhile (fun c => c == ':') with
  | nil => rw [hd] at h; cases h
  | cons x xs =>
    rw [hd] at h hsub
    simp only [Option.some.injEq, Prod.mk.injEq] at h
    obtain ⟨h1, h2⟩ := h
    constructor
    · intro c hc
      rw [← h1] at hc
      exact hsub.subset ((List.takeWhile_sublist _).subset hc)
    · intro c hc
      rw [← h2] at hc
      exact hsub.subset ((List.dropWhile_sublist _).subset ((List.drop_sublist _ _).subset hc))

theorem parse_ext_sim_no_percent (u : Uninit) (str : List Char) (b : Bool) (apn : List Char)
    (hstr : '%' ∉ str) (hu : '%' ∉ u.new_ext_sim_apn)
    (h : parse_ext_sim u str = Except.ok (b, apn)) : '%' ∉ apn := by
  unfold parse_ext_sim at h
  cases ht : strtok str with
  | none =>
    rw [ht] at h
    simp only [Except.ok.injEq, Prod.mk.injEq] at h
    rw [← h.2]; exact hu
  | some p =>
    obtain ⟨param, rest⟩ := p
    rw [ht] at h
    simp only at h
    split at h
    · simp only [Except.ok.injEq, Prod.mk.injEq] at h
      rw [← h.2]; exact hu
    · split at h
      · cases ht2 : strtok rest with
        | none => rw [ht2] at h; cases h
        | some q =>
          obtain ⟨param2, rest2⟩ := q
          rw [ht2] at h
          simp only [Except.ok.injEq, Prod.mk.injEq] at h
          rw [← h.2]
          intro hmem
          have h1 : '%' ∈ lowerLoop param2 := List.mem_of_mem_take hmem
          have h2 : '%' ∉ param2 := fun hp =>
            hstr ((strtok_subset str param rest ht).2 _
              ((strtok_subset rest param2 rest2 ht2).1 _ hp))
          exact lowerLoop_no_percent param2 h2 h1
      · cases h

/-- On inputs without `%` the two string setters always return: the only runs
without a result are those where `snprintf` meets a conversion in the string
used as its format. -/
theorem string_setters_return (u : Uninit) (str : List Char) (s : State)
    (hstr : '%' ∉ str) (hu : '%' ∉ u.new_ext_sim_apn) :
    (at_set_blues_prod_uid str s).isSome = true ∧
    (at_set_blues_ext_sim u str s).isSome = true := by
  constructor
  · unfold at_set_blues_prod_uid
    split
    · rfl
    · have h1 : '%' ∉ lowerLoop str := lowerLoop_no_percent str hstr
      have e1 : snprintf_fmt 255 (lowerLoop str) = some ((lowerLoop str).take 254) := by
        unfold snprintf_fmt
        rw [expandFormat_of_no_percent _ h1]; rfl
      have h2 : '%' ∉ (lowerLoop str).take 254 := fun hm => h1 (List.mem_of_mem_take hm)
      have e2 : snprintf_fmt 256 ((lowerLoop str).take 254)
          = some (((lowerLoop str).take 254).take 255) := by
        unfold snprintf_fmt
        rw [expandFormat_of_no_percent _ h2]; rfl
      rw [e1]
      simp only [e2]
      split <;> rfl
  · unfold at_set_blues_ext_sim
    cases hp : parse_ext_sim u str with
    | error e => rfl
    | ok r =>
      obtain ⟨b, apn⟩ := r
      have h1 : '%' ∉ apn := parse_ext_sim_no_percent u str b apn hstr hu hp
      have e1 : snprintf_fmt 256 apn = some (apn.take 255) := by
        unfold snprintf_fmt
        rw [expandFormat_of_no_percent _ h1]; rfl
      simp only [e1]
      split_ifs <;> rfl

/-- The three ways `at_set_blues_prod_uid` can return. -/
theorem prod_uid_result (str : List Char) (s : State) (r : ATStatus × State)
    (h : at_set_blues_prod_uid str s = some r) :
    r = (ATStatus.AT_ERRNO_PARA_NUM, s) ∨ r = (ATStatus.AT_SUCCESS, s) ∨
    ∃ uid, uid.length ≤ 255 ∧
      r = (ATStatus.AT_SUCCESS,
        save_blues_settings
          { s with g_blues_settings := { s.g_blues_settings with product_uid := uid } }) := by
  unfold at_set_blues_prod_uid at h
  by_cases hlen : str.length < 25
  · rw [if_pos hlen] at h
    exact Or.inl (Option.some.inj h).symm
  · rw [if_neg hlen] at h
    cases e1 : snprintf_fmt 255 (lowerLoop str) with
    | none => simp [e1] at h
    | some new_uid =>
      by_cases heq : new_uid = s.g_blues_settings.product_uid
      · simp [e1, heq] at h
        exact Or.inr (Or.inl h.symm)
      · cases e2 : snprintf_fmt 256 new_uid with
        | none => simp [e1, heq, e2] at h
        | some uid =>
          simp [e1, heq, e2] at h
          exact Or.inr (Or.inr ⟨uid, snprintf_fmt_length 256 new_uid uid e2, h.symm⟩)

/-- The ways `at_set_blues_ext_sim` can return: an early error, nothing to do, or
a save after writing the SIM flag and possibly the APN. -/
theorem ext_sim_result (u : Uninit) (str : List Char) (s : State) (r : ATStatus × State)
    (h : at_set_blues_ext_sim u str s = some r) :
    r = (ATStatus.AT_ERRNO_PARA_NUM, s) ∨ r = (ATStatus.AT_SUCCESS, s) ∨
    (∃ b, r = (ATStatus.AT_SUCCESS,
        save_blues_settings
          { s with g_blues_settings := { s.g_blues_settings with use_ext_sim := b } })) ∨
    (∃ b apn, apn.length ≤ 255 ∧
      r = (ATStatus.AT_SUCCESS,
        save_blues_settings
          { s with g_blues_settings :=
              { s.g_blues_settings with use_ext_sim := b, ext_sim_apn := apn } })) := by
  unfold at_set_blues_ext_sim at h
  cases hparse : parse_ext_sim u str with
  | error e =>
    have he : e = ATStatus.AT_ERRNO_PARA_NUM := by
      unfold parse_ext_sim at hparse
      split at hparse
      · cases hparse
      · split at hparse
        · cases hparse
        · split at hparse
          · split at hparse
            · cases hparse
            · exact (Except.error.inj hparse).symm
          · exact (Except.error.inj hparse).symm
    simp [hparse, he] at h
    exact Or.inl h.symm
  | ok p =>
    obtain ⟨b, apn⟩ := p
    by_cases hb : b = s.g_blues_settings.use_ext_sim
    · by_cases hapn : apn = s.g_blues_settings.product_uid
      · simp [hparse, hb, hapn] at h
        exact Or.inr (Or.inl h.symm)
      · cases e2 : snprintf_fmt 256 apn with
        | none => simp [hparse, hb, hapn, e2] at h
        | some out =>
          simp [hparse, hb, hapn, e2] at h
          refine Or.inr (Or.inr (Or.inr ⟨s.g_blues_settings.use_ext_sim, out,
            snprintf_fmt_length 256 apn out e2, ?_⟩))
          rw [← h]
    · by_cases hapn : apn = s.g_blues_settings.product_uid
      · simp [hparse, hb, hapn] at h
        exact Or.inr (Or.inr (Or.inl ⟨b, h.symm⟩))
      · cases e2 : snprintf_fmt 256 apn with
        | none => simp [hparse, hb, hapn, e2] at h
        | some out =>
          simp [hparse, hb, hapn, e2] at h
          exact Or.inr (Or.inr (Or.inr ⟨b, out, snprintf_fmt_length 256 apn out e2, h.symm⟩))

/-- C17: if `product_uid` and `ext_sim_apn` are at most 255 characters long
before the call, they are at most 255 characters long after
`at_set_blues_prod_uid` or `at_set_blues_ext_sim` returns, for every input
string of any length and every content of the uninitialised locals. -/
theorem string_fields_stay_bounded (u : Uninit) (str : List Char) (s : State)
    (hfit : FieldsFit s.g_blues_settings) :
    (∀ r, at_set_blues_prod_uid str s = some r → FieldsFit r.2.g_blues_settings) ∧
    (∀ r, at_set_blues_ext_sim u str s = some r → FieldsFit r.2.g_blues_settings) := by
  obtain ⟨hp, ha⟩ := hfit
  constructor
  · intro r hr
    rcases prod_uid_result str s r hr with rfl | rfl | ⟨uid, hlen, rfl⟩
    · exact ⟨hp, ha⟩
    · exact ⟨hp, ha⟩
    · exact ⟨by simpa using hlen, by simpa using ha⟩
  · intro r hr
    rcases ext_sim_result u str s r hr with rfl | rfl | ⟨b, rfl⟩ | ⟨b, apn, hlen, rfl⟩
    · exact ⟨hp, ha⟩
    · exact ⟨hp, ha⟩
    · exact ⟨by simpa using hp, by simpa using ha⟩
    · exact ⟨by simpa using hp, by simpa using hlen⟩

set_option maxRecDepth 100000 in
/-- Witness for C17: on the configured device a 300-character product UID and a
300-character APN both return, and the fields hold 254 and 255 characters. -/
theorem string_fields_stay_bounded_witness :
    FieldsFit configured.g_blues_settings ∧
    (∃ r, at_set_blues_prod_uid (List.replicate 300 'a') configured = some r ∧
      r.2.g_blues_settings.product_uid.length = 254 ∧ FieldsFit r.2.g_blues_settings) ∧
    (∃ r, at_set_blues_ext_sim ⟨false, []⟩ ('1' :: ':' :: List.replicate 300 'a') configured
        = some r ∧
      r.2.g_blues_settings.ext_sim_apn.length = 255 ∧ FieldsFit r.2.g_blues_settings) :=
  ⟨by decide,
   ⟨_, rfl, by decide,
     (string_fields_stay_bounded ⟨false, []⟩ (List.replicate 300 'a') configured
       (by decide)).1 _ rfl⟩,
   ⟨_, rfl, by decide,
     (string_fields_stay_bounded ⟨false, []⟩ ('1' :: ':' :: List.replicate 300 'a') configured
       (by decide)).2 _ rfl⟩⟩

theorem snapshot_save (t : State) : Snapshot (save_blues_settings t) := by
  simp [Snapshot]

theorem mode_result (str : List Char) (s : State) :
    at_set_blues_mode str s = (ATStatus.AT_ERRNO_PARA_NUM, s) ∨
    (∃ c, at_set_blues_mode str s = (ATStatus.AT_SUCCESS, { s with attn_calls := c :: s.attn_calls })) ∨
    (∃ b c, at_set_blues_mode str s = (ATStatus.AT_SUCCESS,
      save_blues_settings
        { s with
          g_blues_settings := { s.g_blues_settings with conn_continous := b },
          attn_calls := c :: s.attn_calls })) := by
  by_cases h : BeginsWithFlag str
  · obtain ⟨b, hb⟩ := flagChar_cases str h
    rw [mode_of_flag str s b hb]
    by_cases hc : s.g_blues_settings.conn_continous = b
    · rw [if_pos hc]; exact Or.inr (Or.inl ⟨_, rfl⟩)
    · rw [if_neg hc]; exact Or.inr (Or.inr ⟨_, _, rfl⟩)
  · exact Or.inl (mode_rejects str s h)

theorem trigger_result (str : List Char) (s : State) :
    at_set_blues_trigger str s = (ATStatus.AT_ERRNO_PARA_NUM, s) ∨
    (∃ c, at_set_blues_trigger str s
      = (ATStatus.AT_SUCCESS, { s with attn_calls := c :: s.attn_calls })) ∨
    (∃ b c, at_set_blues_trigger str s = (ATStatus.AT_SUCCESS,
      save_blues_settings
        { s with
          g_blues_settings := { s.g_blues_settings with motion_trigger := b },
          attn_calls := c :: s.attn_calls })) := by
  by_cases h : BeginsWithFlag str
  · obtain ⟨b, hb⟩ := flagChar_cases str h
    rw [trigger_of_flag str s b hb]
    by_cases hc : s.g_blues_settings.motion_trigger = b
    · rw [if_pos hc]; exact Or.inr (Or.inl ⟨_, rfl⟩)
    · rw [if_neg hc]; exact Or.inr (Or.inr ⟨_, _, rfl⟩)
  · exact Or.inl (trigger_rejects str s h)

/-- C18: if the flash file exists and equals the in-memory record before the
call, it exists and equals the record after any returning call of
`at_set_blues_prod_uid`, `at_set_blues_ext_sim`, `at_set_blues_mode` or
`at_set_blues_trigger`, whatever the input; the four queries keep it as well,
and `at_reset_blues_settings` breaks it. -/
theorem setters_keep_snapshot (ATQUERY_SIZE : Nat) (u : Uninit) (str : List Char) (s : State)
    (hs : Snapshot s) :
    (∀ r, at_set_blues_prod_uid str s = some r → Snapshot r.2) ∧
    (∀ r, at_set_blues_ext_sim u str s = some r → Snapshot r.2) ∧
    Snapshot (at_set_blues_mode str s).2 ∧
    Snapshot (at_set_blues_trigger str s).2 ∧
    Snapshot (at_query_blues_prod_uid ATQUERY_SIZE s).2 ∧
    Snapshot (at_query_blues_ext_sim ATQUERY_SIZE s).2 ∧
    Snapshot (at_query_blues_mode ATQUERY_SIZE s).2 ∧
    Snapshot (at_query_blues_trigger ATQUERY_SIZE s).2 ∧
    ¬ Snapshot (at_reset_blues_settings s).2 := by
  refine ⟨?_, ?_, ?_, ?_, hs, ?_, hs, hs, ?_⟩
  · intro r hr
    rcases prod_uid_result str s r hr with rfl | rfl | ⟨uid, _, rfl⟩
    · exact hs
    · exact hs
    · exact snapshot_save _
  · intro r hr
    rcases ext_sim_result u str s r hr with rfl | rfl | ⟨b, rfl⟩ | ⟨b, apn, _, rfl⟩
    · exact hs
    · exact hs
    · exact snapshot_save _
    · exact snapshot_save _
  · rcases mode_result str s with h | ⟨c, h⟩ | ⟨b, c, h⟩ <;> rw [h]
    · exact hs
    · exact hs
    · exact snapshot_save _
  · rcases trigger_result str s with h | ⟨c, h⟩ | ⟨b, c, h⟩ <;> rw [h]
    · exact hs
    · exact hs
    · exact snapshot_save _
  · unfold at_query_blues_ext_sim
    split <;> exact hs
  · unfold Snapshot at hs ⊢
    simp [at_reset_blues_settings, hs]

/-- Witness for C18: the configured device, whose file mirrors the record, after
a new product UID, a new APN, a mode change and a rejected trigger input; and
after a reset. -/
theorem setters_keep_snapshot_witness :
    Snapshot configured ∧
    (∃ r, at_set_blues_prod_uid "com.example.project:other".toList configured = some r ∧
      Snapshot r.2) ∧
    (∃ r, at_set_blues_ext_sim ⟨false, []⟩ "1:apn1".toList configured = some r ∧
      Snapshot r.2) ∧
    Snapshot (at_set_blues_mode ['1'] configured).2 ∧
    Snapshot (at_set_blues_trigger ['x'] configured).2 ∧
    ¬ Snapshot (at_reset_blues_settings configured).2 :=
  have h := setters_keep_snapshot 128 ⟨false, []⟩
  ⟨by decide,
   ⟨_, rfl, (h "com.example.project:other".toList configured (by decide)).1 _ rfl⟩,
   ⟨_, rfl, (h "1:apn1".toList configured (by decide)).2.1 _ rfl⟩,
   (h ['1'] configured (by decide)).2.2.1,
   (h ['x'] configured (by decide)).2.2.2.1,
   (h [] configured (by decide)).2.2.2.2.2.2.2.2⟩

/-- C19: whatever the input, a returning `at_set_blues_prod_uid` changes no
settings field other than `product_uid`; `at_set_blues_ext_sim` none other than
`use_ext_sim` and `ext_sim_apn`; `at_set_blues_mode` none other than
`conn_continous`; `at_set_blues_trigger` none other than `motion_trigger`; in
each case `valid_mark` is as before or is `0xAA55` after the save the call
performed. -/
theorem setters_frame (u : Uninit) (str : List Char) (s : State) :
    (∀ r, at_set_blues_prod_uid str s = some r →
      r.2.g_blues_settings.use_ext_sim = s.g_blues_settings.use_ext_sim ∧
      r.2.g_blues_settings.ext_sim_apn = s.g_blues_settings.ext_sim_apn ∧
      r.2.g_blues_settings.conn_continous = s.g_blues_settings.conn_continous ∧
      r.2.g_blues_settings.motion_trigger = s.g_blues_settings.motion_trigger ∧
      MarkKeptOrSaved s r.2) ∧
    (∀ r, at_set_blues_ext_sim u str s = some r →
      r.2.g_blues_settings.product_uid = s.g_blues_settings.product_uid ∧
      r.2.g_blues_settings.conn_continous = s.g_blues_settings.conn_continous ∧
      r.2.g_blues_settings.motion_trigger = s.g_blues_settings.motion_trigger ∧
      MarkKeptOrSaved s r.2) ∧
    ((at_set_blues_mode str s).2.g_blues_settings.product_uid = s.g_blues_settings.product_uid ∧
      (at_set_blues_mode str s).2.g_blues_settings.use_ext_sim
        = s.g_blues_settings.use_ext_sim ∧
      (at_set_blues_mode str s).2.g_blues_settings.ext_sim_apn
        = s.g_blues_settings.ext_sim_apn ∧
      (at_set_blues_mode str s).2.g_blues_settings.motion_trigger
        = s.g_blues_settings.motion_trigger ∧
      MarkKeptOrSaved s (at_set_blues_mode str s).2) ∧
    ((at_set_blues_trigger str s).2.g_blues_settings.product_uid
        = s.g_blues_settings.product_uid ∧
      (at_set_blues_trigger str s).2.g_blues_settings.use_ext_sim
        = s.g_blues_settings.use_ext_sim ∧
      (at_set_blues_trigger str s).2.g_blues_settings.ext_sim_apn
        = s.g_blues_settings.ext_sim_apn ∧
      (at_set_blues_trigger str s).2.g_blues_settings.conn_continous
        = s.g_blues_settings.conn_continous ∧
      MarkKeptOrSaved s (at_set_blues_trigger str s).2) := by
  refine ⟨?_, ?_, ?_, ?_⟩
  · intro r hr
    rcases prod_uid_result str s r hr with rfl | rfl | ⟨uid, _, rfl⟩ <;>
      simp [MarkKeptOrSaved]
  · intro r hr
    rcases ext_sim_result u str s r hr with rfl | rfl | ⟨b, rfl⟩ | ⟨b, apn, _, rfl⟩ <;>
      simp [MarkKeptOrSaved]
  · rcases mode_result str s with h | ⟨c, h⟩ | ⟨b, c, h⟩ <;> rw [h] <;>
      simp [MarkKeptOrSaved]
  · rcases trigger_result str s with h | ⟨c, h⟩ | ⟨b, c, h⟩ <;> rw [h] <;>
      simp [MarkKeptOrSaved]

/-- Witness for C19: a new product UID on the device whose file has a stale
marker changes `product_uid` only and sets the marker with its save. -/
theorem setters_frame_witness :
    ∃ r, at_set_blues_prod_uid "com.example.project:other".toList staleFile = some r ∧
      r.2.g_blues_settings.use_ext_sim = staleFile.g_blues_settings.use_ext_sim ∧
      r.2.g_blues_settings.ext_sim_apn = staleFile.g_blues_settings.ext_sim_apn ∧
      r.2.g_blues_settings.conn_continous = staleFile.g_blues_settings.conn_continous ∧
      r.2.g_blues_settings.motion_trigger = staleFile.g_blues_settings.motion_trigger ∧
      MarkKeptOrSaved staleFile r.2 :=
  ⟨_, rfl, (setters_frame ⟨false, []⟩ "com.example.project:other".toList staleFile).1 _ rfl⟩

end Blues
